import Mathlib

/-!
Verification of the interactive map synchronization layer of the yelp_db
dashboard: the data-access client in
`src/frontend-new/src/services/api/geographical.ts`, the map layer state
machine in `src/frontend-new/src/components/Features/GeographicView.tsx`,
and the layer data cache configured in the geographic hooks.

JavaScript runtime values delivered by `response.json()` (and the values the
code derives from them) are embedded as the inductive type `Jval`.  Numbers
are rationals; `nan` represents the IEEE NaN value that JS arithmetic can
produce (JSON itself never contains NaN).  An absent property is represented
by `Option.none` (JS `undefined`).
-/

/-- A JavaScript value as seen by the data-access client. -/
inductive Jval where
  | null
  | nan
  | bool (b : Bool)
  | num (q : ℚ)
  | str (s : String)
  | arr (elems : List Jval)
  | obj (fields : List (String × Jval))

namespace Jval

/-- Recognizes the JS `null` value. -/
def isNull : Jval → Bool
  | .null => true
  | _ => false

/-- JS truthiness: `false`, `0`, `NaN`, `''`, `null`, `undefined` are falsy. -/
def truthy : Jval → Bool
  | .null => false
  | .nan => false
  | .bool b => b
  | .num q => q != 0
  | .str s => s != ""
  | .arr _ => true
  | .obj _ => true

/-- `typeof v === 'number'` (true for NaN as well). -/
def isNumberType : Jval → Bool
  | .num _ => true
  | .nan => true
  | _ => false

/-- `typeof v === 'string'`. -/
def isStringType : Jval → Bool
  | .str _ => true
  | _ => false

/-- `Array.isArray v`. -/
def isArr : Jval → Bool
  | .arr _ => true
  | _ => false

/-- `typeof v === 'object'` for truthy values (objects and arrays). -/
def isObjectType : Jval → Bool
  | .obj _ => true
  | .arr _ => true
  | _ => false

/-- First binding of a key in an object literal (JSON objects bind each key
once). -/
def lookupField : List (String × Jval) → String → Option Jval
  | [], _ => none
  | (k, v) :: rest, key => if k = key then some v else lookupField rest key

/-- Property access `v.key`.  Returns `none` (JS `undefined`) when the value
is not an object or lacks the key.  Callers in the source only dereference
values they have already checked to be truthy, so the throwing accesses on
`null`/`undefined` never occur behind this helper. -/
def get : Jval → String → Option Jval
  | .obj kvs, key => lookupField kvs key
  | _, _ => none

/-- `Object.keys(v).length` (ES2015: primitives coerce; strings expose their
indices, other primitives give an empty list). -/
def keyCount : Jval → Nat
  | .obj kvs => kvs.length
  | .arr xs => xs.length
  | .str s => s.length
  | _ => 0

/-- The values of `Object.keys(v).map(k => v[k])` in key order. -/
def indexedValues : Jval → List Jval
  | .obj kvs => kvs.map (fun kv => kv.2)
  | .arr xs => xs
  | .str s => s.toList.map (fun c => Jval.str (String.mk [c]))
  | _ => []

/-- Array indexing `v[i]` on an array value; `none` is JS `undefined`. -/
def elemAt : Jval → Nat → Option Jval
  | .arr xs, i => xs[i]?
  | _, _ => none

end Jval

/-- Truthiness of a possibly-absent value (`undefined` is falsy). -/
def truthyO : Option Jval → Bool
  | some v => v.truthy
  | none => false

/-- `typeof x === 'number'` for a possibly-absent value. -/
def isNumberTypeO : Option Jval → Bool
  | some v => v.isNumberType
  | none => false

/-- `typeof x === 'string'` for a possibly-absent value. -/
def isStringTypeO : Option Jval → Bool
  | some v => v.isStringType
  | none => false

/-- `Array.isArray x` for a possibly-absent value. -/
def isArrO : Option Jval → Bool
  | some v => v.isArr
  | none => false

/-- The JS `a || b` operator with a possibly-absent left operand: yields the
left value when truthy, the default otherwise. -/
def jsOr (a : Option Jval) (b : Jval) : Jval :=
  match a with
  | some v => if v.truthy then v else b
  | none => b

/-- JS `ToNumber` coercion, partially modelled: `none` stands for NaN.
Numeric strings are not modelled (they coerce to NaN here); no theorem
in this development depends on the numeric value of a coerced string. -/
def jsToNumber : Jval → Option ℚ
  | .null => some 0
  | .nan => none
  | .bool b => some (if b then 1 else 0)
  | .num q => some q
  | .str _ => none
  | .arr [] => some 0
  | .arr [x] => jsToNumber x
  | .arr (_ :: _ :: _) => none
  | .obj _ => none

/-- JS binary `+` on values that reach the neighborhood score computation.
String operands concatenate in JS and then divide to NaN unless numeric;
the (unreachable-from-JSON-numbers) numeric-string case is approximated
by NaN. -/
def jsAdd (a b : Jval) : Jval :=
  match a, b with
  | .str _, _ => .nan
  | _, .str _ => .nan
  | _, _ =>
    match jsToNumber a, jsToNumber b with
    | some x, some y => .num (x + y)
    | _, _ => .nan

/-- JS division of a value by a nonzero rational constant. -/
def jsDivConst (a : Jval) (d : ℚ) : Jval :=
  match jsToNumber a with
  | some x => .num (x / d)
  | none => .nan

/-- `Math.round`: for finite x this is `⌊x + 1/2⌋`; NaN propagates. -/
def jsRound (a : Jval) : Jval :=
  match jsToNumber a with
  | some x => .num (⌊x + 1 / 2⌋ : ℤ)
  | none => .nan

/-- JS subtraction `a - d` for a possibly-absent left operand
(`undefined - d` is NaN). -/
def jsSubO (a : Option Jval) (d : ℚ) : Jval :=
  match a with
  | some v =>
    match jsToNumber v with
    | some x => .num (x - d)
    | none => .nan
  | none => .nan

/-- JS addition `a + d` for a possibly-absent left operand. -/
def jsAddO (a : Option Jval) (d : ℚ) : Jval :=
  match a with
  | some v =>
    match jsToNumber v with
    | some x => .num (x + d)
    | none => .nan
  | none => .nan

/-- Outcome of `safeFetch`: every network, timeout, HTTP-status and JSON
parsing failure surfaces as a thrown error, which the three exported fetch
functions catch. -/
inductive FetchError where
  | network
  | timeout
  | httpStatus (code : Nat)
  | parse
deriving DecidableEq, Repr

/-- The result a fetch function observes from `safeFetch`. -/
abbrev FetchResult := Except FetchError Jval

/-- `data.map((item, index) => f index item)`: JS `Array.prototype.map`
with the element index. -/
def mapWithIndex (f : Nat → α → β) : Nat → List α → List β
  | _, [] => []
  | i, x :: xs => f i x :: mapWithIndex f (i + 1) xs

/-!
## Data access client: `getDensityGrid`
(`src/frontend-new/src/services/api/geographical.ts`, lines 93-170)
-/

/-- The GeoJSON feature built by `getDensityGrid`.  `featureType` and
`geometryType` mirror the literal `type: 'Feature'` / `'Polygon'` fields;
the property values are whatever JS values the transform produced. -/
structure DensityGridFeature where
  featureType : String
  geometryType : String
  coordinates : Jval
  id : Jval
  business_count : Jval
  avg_rating : Jval
  service_diversity : Jval
  service_types : Jval

/-- The per-item shape check of `getDensityGrid`:
`item && item.coordinates && item.coordinates.coordinates &&
Array.isArray(item.coordinates.coordinates) && item.metrics`. -/
def densityHasExpectedStructure (item : Jval) : Bool :=
  item.truthy
    && truthyO (item.get "coordinates")
    && truthyO ((item.get "coordinates").bind (fun c => c.get "coordinates"))
    && isArrO ((item.get "coordinates").bind (fun c => c.get "coordinates"))
    && truthyO (item.get "metrics")

/-- The fallback polygon ring built for a malformed density item, centered
at the fixed Tampa origin `(-82.45, 27.95)` and offset by the item index. -/
def densityFallbackRing (i : Nat) : Jval :=
  let x : ℚ := -82.45 + i * 0.001
  let y : ℚ := 27.95 + i * 0.001
  .arr [.arr [
    .arr [.num x, .num y],
    .arr [.num (x + 0.01), .num y],
    .arr [.num (x + 0.01), .num (y + 0.01)],
    .arr [.num x, .num (y + 0.01)],
    .arr [.num x, .num y]]]

/-- The placeholder feature substituted for a malformed density item. -/
def fallbackDensityFeature (i : Nat) : DensityGridFeature where
  featureType := "Feature"
  geometryType := "Polygon"
  coordinates := densityFallbackRing i
  id := .str ("grid-" ++ toString i)
  business_count := .num 0
  avg_rating := .num 0
  service_diversity := .num 0
  service_types := .arr []

/-- The body of `data.map((item, index) => ...)` in `getDensityGrid`.  Every
property access in the well-formed branch is guarded, so the surrounding
`try/catch` can never fire and the `.filter(f => f !== null)` drops nothing;
the transform is total. -/
def processDensityItem (i : Nat) (item : Jval) : DensityGridFeature :=
  if densityHasExpectedStructure item then
    { featureType := "Feature"
      geometryType := "Polygon"
      coordinates := ((item.get "coordinates").bind (fun c => c.get "coordinates")).getD .null
      id := jsOr (item.get "grid_id") (.str ("grid-" ++ toString i))
      business_count := jsOr ((item.get "metrics").bind (fun m => m.get "business_count")) (.num 0)
      avg_rating := jsOr ((item.get "metrics").bind (fun m => m.get "avg_rating")) (.num 0)
      service_diversity := jsOr ((item.get "metrics").bind (fun m => m.get "service_diversity")) (.num 0)
      service_types := jsOr ((item.get "metrics").bind (fun m => m.get "service_types")) (.arr []) }
  else
    fallbackDensityFeature i

/-- `getDensityGrid`: catches every fetch error and returns `[]`; returns
`[]` on a missing, non-array or empty response; otherwise maps each record
to a feature. -/
def getDensityGrid (r : FetchResult) : List DensityGridFeature :=
  match r with
  | .error _ => []
  | .ok data =>
    match data with
    | .arr [] => []
    | .arr items => mapWithIndex processDensityItem 0 items
    | _ => []

/-!
## Data access client: `getBusinessClusters`
(`src/frontend-new/src/services/api/geographical.ts`, lines 175-272)
-/

/-- The GeoJSON feature built by `getBusinessClusters`. -/
structure BusinessClusterFeature where
  featureType : String
  geometryType : String
  coordinates : Jval
  id : Jval
  size : Jval
  rating : Jval
  categories : Jval

/-- The per-record shape check of `getBusinessClusters`:
`cluster && typeof cluster.cluster_id === 'string' && typeof cluster.size
=== 'number' && typeof cluster.avg_rating === 'number' &&
Array.isArray(cluster.categories) && cluster.center`. -/
def clusterHasExpectedStructure (cluster : Jval) : Bool :=
  cluster.truthy
    && isStringTypeO (cluster.get "cluster_id")
    && isNumberTypeO (cluster.get "size")
    && isNumberTypeO (cluster.get "avg_rating")
    && isArrO (cluster.get "categories")
    && truthyO (cluster.get "center")

/-- The fallback feature substituted for a malformed cluster record,
anchored at the Tampa origin and offset by the record index. -/
def fallbackClusterFeature (i : Nat) : BusinessClusterFeature where
  featureType := "Feature"
  geometryType := "Point"
  coordinates := .arr [.num (-82.45 + i * 0.01), .num (27.95 + i * 0.01)]
  id := .str ("cluster-" ++ toString i)
  size := .num 5
  rating := .num 3
  categories := .arr [.str "Restaurant"]

/-- The center-normalization chain of `getBusinessClusters` (lines 219-244):
a truthy `center.coordinates` array is used verbatim; numeric `{x,y}` or
`{longitude,latitude}` become a pair; an object with exactly two keys and
two numeric values becomes a pair; everything else defaults to
`[-82.45, 27.95]`. -/
def clusterCenterCoordinates (center : Jval) : Jval :=
  if truthyO (center.get "coordinates") && isArrO (center.get "coordinates") then
    (center.get "coordinates").getD .null
  else if isNumberTypeO (center.get "x") && isNumberTypeO (center.get "y") then
    .arr [(center.get "x").getD .null, (center.get "y").getD .null]
  else if isNumberTypeO (center.get "longitude") && isNumberTypeO (center.get "latitude") then
    .arr [(center.get "longitude").getD .null, (center.get "latitude").getD .null]
  else if center.isObjectType && center.keyCount == 2 then
    match center.indexedValues with
    | [v0, v1] =>
      if v0.isNumberType && v1.isNumberType then .arr [v0, v1]
      else .arr [.num (-82.45), .num 27.95]
    | _ => .arr [.num (-82.45), .num 27.95]
  else
    .arr [.num (-82.45), .num 27.95]

/-- The body of `data.map((cluster, index) => ...)` in `getBusinessClusters`.
As in the density transform, all accesses are guarded: the `try/catch`
never fires and the null-filter is the identity. -/
def processClusterItem (i : Nat) (cluster : Jval) : BusinessClusterFeature :=
  if clusterHasExpectedStructure cluster then
    { featureType := "Feature"
      geometryType := "Point"
      coordinates := clusterCenterCoordinates ((cluster.get "center").getD .null)
      id := jsOr (cluster.get "cluster_id") (.str ("cluster-" ++ toString i))
      size := jsOr (cluster.get "size") (.num 5)
      rating := jsOr (cluster.get "avg_rating") (.num 3)
      categories := jsOr (cluster.get "categories") (.arr []) }
  else
    fallbackClusterFeature i

/-- `getBusinessClusters`: catches every fetch error and returns `[]`;
returns `[]` on a missing, non-array or empty response (no fallback
clusters are synthesized); otherwise maps each record to a feature. -/
def getBusinessClusters (r : FetchResult) : List BusinessClusterFeature :=
  match r with
  | .error _ => []
  | .ok data =>
    match data with
    | .arr [] => []
    | .arr items => mapWithIndex processClusterItem 0 items
    | _ => []

/-- `[a, b]` is a pair whose two entries are JS numbers
(`typeof === 'number'`). -/
def isNumberPair : Jval → Bool
  | .arr [a, b] => a.isNumberType && b.isNumberType
  | _ => false

/-!
## Data access client: `getNeighborhoodMetrics`
(`src/frontend-new/src/services/api/geographical.ts`, lines 277-462)
-/

/-- The GeoJSON feature built by `getNeighborhoodMetrics`. -/
structure NeighborhoodFeature where
  featureType : String
  geometryType : String
  coordinates : Jval
  name : Jval
  businesses : Jval
  rating : Jval
  diversity : Jval
  score : Jval

/-- The index-derived fallback longitude used when no geometry or usable
center can be extracted: `-82.48 + Math.floor(index / 5) * 0.03`. -/
def neighborhoodFallbackLng (i : Nat) : ℚ := -82.48 + (i / 5 : Nat) * 0.03

/-- The index-derived fallback latitude: `27.94 + (index % 5) * 0.02`. -/
def neighborhoodFallbackLat (i : Nat) : ℚ := 27.94 + (i % 5) * 0.02

/-- The center point extracted for a neighborhood whose record offers a
center rather than a polygon (lines 316-344).  The pair components are
possibly-absent JS values (array lookups can yield `undefined`); when no
recognized shape matches, the inner `try/catch` falls back to the
index-derived point. -/
def neighborhoodCenterPoint (center : Jval) (i : Nat) : Option Jval × Option Jval :=
  if center.isArr then
    (center.elemAt 0, center.elemAt 1)
  else if truthyO (center.get "coordinates") && isArrO (center.get "coordinates") then
    (((center.get "coordinates").getD .null).elemAt 0,
     ((center.get "coordinates").getD .null).elemAt 1)
  else if isNumberTypeO (center.get "x") && isNumberTypeO (center.get "y") then
    (center.get "x", center.get "y")
  else if isNumberTypeO (center.get "longitude") && isNumberTypeO (center.get "latitude") then
    (center.get "longitude", center.get "latitude")
  else if center.keyCount == 2 then
    match center.indexedValues with
    | [v0, v1] =>
      if v0.isNumberType && v1.isNumberType then (some v0, some v1)
      else (some (.num (neighborhoodFallbackLng i)), some (.num (neighborhoodFallbackLat i)))
    | _ => (some (.num (neighborhoodFallbackLng i)), some (.num (neighborhoodFallbackLat i)))
  else
    (some (.num (neighborhoodFallbackLng i)), some (.num (neighborhoodFallbackLat i)))

/-- The `0.01`-sized square ring built around a center point (lines
346-357); JS arithmetic on non-numeric components yields NaN coordinates
rather than throwing. -/
def ringAroundCenter (cp : Option Jval × Option Jval) : Jval :=
  .arr [.arr [
    .arr [jsSubO cp.1 0.01, jsSubO cp.2 0.01],
    .arr [jsAddO cp.1 0.01, jsSubO cp.2 0.01],
    .arr [jsAddO cp.1 0.01, jsAddO cp.2 0.01],
    .arr [jsSubO cp.1 0.01, jsAddO cp.2 0.01],
    .arr [jsSubO cp.1 0.01, jsSubO cp.2 0.01]]]

/-- The `0.02`-sized fallback ring built when the record offers no geometry
at all (lines 359-374). -/
def neighborhoodFallbackRing (i : Nat) : Jval :=
  let lng := neighborhoodFallbackLng i
  let lat := neighborhoodFallbackLat i
  .arr [.arr [
    .arr [.num lng, .num lat],
    .arr [.num (lng + 0.02), .num lat],
    .arr [.num (lng + 0.02), .num (lat + 0.02)],
    .arr [.num lng, .num (lat + 0.02)],
    .arr [.num lng, .num lat]]]

/-- Polygon coordinates chosen for a neighborhood record (lines 296-374):
a directly provided `geometry`, then `area_boundary`, then a square around
an extracted center, then the index-derived fallback square. -/
def neighborhoodCoordinates (n : Jval) (i : Nat) : Jval :=
  if truthyO (n.get "geometry") && truthyO ((n.get "geometry").bind (fun g => g.get "coordinates")) then
    ((n.get "geometry").bind (fun g => g.get "coordinates")).getD .null
  else if truthyO (n.get "area_boundary")
      && truthyO ((n.get "area_boundary").bind (fun g => g.get "coordinates")) then
    ((n.get "area_boundary").bind (fun g => g.get "coordinates")).getD .null
  else if truthyO (n.get "neighborhood_center") || truthyO (n.get "center") then
    ringAroundCenter
      (neighborhoodCenterPoint (jsOr (n.get "neighborhood_center") ((n.get "center").getD .null)) i)
  else
    neighborhoodFallbackRing i

/-- The feature built from one non-null neighborhood record (lines
296-400).  The derived score averages the three component scores and
rounds, mirroring `Math.round(((density_score || 0) + (accessibility_score
|| 0) + (service_distribution_score || 0)) / 3)`. -/
def buildNeighborhoodFeature (n : Jval) (i : Nat) : NeighborhoodFeature where
  featureType := "Feature"
  geometryType := "Polygon"
  coordinates := neighborhoodCoordinates n i
  name := jsOr (n.get "name") (jsOr (n.get "area_name")
    (jsOr (n.get "neighborhood_name") (.str ("Area " ++ toString (i + 1)))))
  businesses := jsOr (n.get "total_businesses") (jsOr (n.get "businesses")
    (jsOr (n.get "business_count") (.num 0)))
  rating := jsOr (n.get "avg_rating") (jsOr (n.get "rating") (.num 0))
  diversity := jsOr (n.get "service_diversity") (jsOr (n.get "diversity") (.num 0))
  score := jsOr (n.get "score") (jsOr (n.get "neighborhood_score")
    (jsRound (jsDivConst
      (jsAdd (jsAdd (jsOr (n.get "density_score") (.num 0))
                    (jsOr (n.get "accessibility_score") (.num 0)))
             (jsOr (n.get "service_distribution_score") (.num 0)))
      3)))

/-- The body of `data.map((neighborhood, index) => ...)`: dereferencing a
`null` record throws (`neighborhood.geometry`), is caught by the per-record
`try/catch`, and maps to `null`, which the subsequent filter drops; every
other record produces a feature (all remaining accesses are guarded or
non-throwing, and the inner center `try/catch` recovers internally). -/
def processNeighborhoodItem (i : Nat) (n : Jval) : Option NeighborhoodFeature :=
  match n with
  | .null => none
  | _ => some (buildNeighborhoodFeature n i)

/-- One entry of the fixed fallback table (lines 422-433) turned into a
feature with a `0.01`-sized square at its literal coordinates. -/
def mkFallbackNeighborhood (name : String) (businesses rating diversity score lng lat : ℚ) :
    NeighborhoodFeature where
  featureType := "Feature"
  geometryType := "Polygon"
  coordinates := .arr [.arr [
    .arr [.num (lng - 0.01), .num (lat - 0.01)],
    .arr [.num (lng + 0.01), .num (lat - 0.01)],
    .arr [.num (lng + 0.01), .num (lat + 0.01)],
    .arr [.num (lng - 0.01), .num (lat + 0.01)],
    .arr [.num (lng - 0.01), .num (lat - 0.01)]]]
  name := .str name
  businesses := .num businesses
  rating := .num rating
  diversity := .num diversity
  score := .num score

/-- `createFallbackNeighborhoods`: the fixed built-in set of ten named
Tampa neighborhoods with literal coordinates and metrics. -/
def createFallbackNeighborhoods : List NeighborhoodFeature :=
  [ mkFallbackNeighborhood "Hyde Park" 87 4.3 12 78 (-82.4633) 27.9380,
    mkFallbackNeighborhood "Downtown Tampa" 156 3.9 18 82 (-82.4572) 27.9506,
    mkFallbackNeighborhood "Ybor City" 104 4.1 15 76 (-82.4370) 27.9600,
    mkFallbackNeighborhood "Westshore" 121 3.8 14 70 (-82.5250) 27.9530,
    mkFallbackNeighborhood "Channelside" 65 4.2 10 75 (-82.4450) 27.9420,
    mkFallbackNeighborhood "Seminole Heights" 79 4.5 11 73 (-82.4600) 27.9950,
    mkFallbackNeighborhood "SoHo" 93 4.4 13 80 (-82.4820) 27.9310,
    mkFallbackNeighborhood "Palma Ceia" 58 4.2 9 74 (-82.4910) 27.9210,
    mkFallbackNeighborhood "Carrollwood" 88 3.9 12 69 (-82.5050) 28.0480,
    mkFallbackNeighborhood "Brandon" 110 3.7 14 65 (-82.2860) 27.9370 ]

/-- The features surviving the map-and-filter over a neighborhood response
array. -/
def neighborhoodFeaturesOf (items : List Jval) : List NeighborhoodFeature :=
  (mapWithIndex processNeighborhoodItem 0 items).reduceOption

/-- `getNeighborhoodMetrics`: catches every fetch error and returns the
fallback set; returns the fallback set on a missing, non-array or empty
response, and also when the whole response yields zero features; otherwise
returns the mapped features. -/
def getNeighborhoodMetrics (r : FetchResult) : List NeighborhoodFeature :=
  match r with
  | .error _ => createFallbackNeighborhoods
  | .ok data =>
    match data with
    | .arr [] => createFallbackNeighborhoods
    | .arr items =>
      let features := neighborhoodFeaturesOf items
      if features.length > 0 then features else createFallbackNeighborhoods
    | _ => createFallbackNeighborhoods

/-!
## Map instance controller: layer visibility state machine
(`src/frontend-new/src/components/Features/GeographicView.tsx`)

The map registers six visual layers over three sources; one visibility
boolean per layer id (`'visible'` / `'none'`).  All `setLayoutProperty`
writes in the component occur in three synchronous blocks: the hide-block
of the `MapLayerControls.onChange` handler (lines 952-969), the
`forceRefreshSources` block (lines 807-812), and the visibility effect
(lines 832-868); the latter two write all six layers from one active kind.
-/

/-- The three selectable layer kinds (`MapLayerType`). -/
inductive MapLayerType where
  | density
  | clusters
  | neighborhoods
deriving DecidableEq, Repr

/-- Visibility of the six mapbox layers, in source registration order. -/
structure LayerVisibility where
  densityGridLayer : Bool
  clustersCircle : Bool
  clusterLabels : Bool
  neighborhoodsLayer : Bool
  neighborhoodsOutline : Bool
  neighborhoodsLabels : Bool
deriving DecidableEq, Repr

/-- Visibility right after `map.on('load')` registers the layers: the
density layer is created `'visible'`, all five others `'none'`. -/
def initialLayerVisibility : LayerVisibility where
  densityGridLayer := true
  clustersCircle := false
  clusterLabels := false
  neighborhoodsLayer := false
  neighborhoodsOutline := false
  neighborhoodsLabels := false

/-- Whether any visual layer of the given kind is visible. -/
def kindVisible (v : LayerVisibility) : MapLayerType → Bool
  | .density => v.densityGridLayer
  | .clusters => v.clustersCircle || v.clusterLabels
  | .neighborhoods => v.neighborhoodsLayer || v.neighborhoodsOutline || v.neighborhoodsLabels

/-- How many of the three kinds have a visible layer. -/
def visibleKindCount (v : LayerVisibility) : Nat :=
  ([MapLayerType.density, .clusters, .neighborhoods].filter (kindVisible v)).length

/-- The hide-block of the `onChange` handler: sets every layer of the
currently active kind to `'none'`, leaving the other kinds untouched. -/
def hideKind (k : MapLayerType) (v : LayerVisibility) : LayerVisibility :=
  match k with
  | .density => { v with densityGridLayer := false }
  | .clusters => { v with clustersCircle := false, clusterLabels := false }
  | .neighborhoods =>
    { v with neighborhoodsLayer := false, neighborhoodsOutline := false,
             neighborhoodsLabels := false }

/-- The visibility assignment written by `forceRefreshSources` and by the
layer-visibility effect: each of the six layers becomes visible exactly
when its kind is the active one. -/
def applyLayerVisibility (active : MapLayerType) : LayerVisibility where
  densityGridLayer := active = .density
  clustersCircle := active = .clusters
  clusterLabels := active = .clusters
  neighborhoodsLayer := active = .neighborhoods
  neighborhoodsOutline := active = .neighborhoods
  neighborhoodsLabels := active = .neighborhoods

/-- One synchronous visibility-writing block, at the granularity at which
the single-threaded event loop lets the rendering surface observe state. -/
inductive VisWrite where
  | hide (k : MapLayerType)
  | showFor (k : MapLayerType)
deriving DecidableEq, Repr

/-- Effect of one write block on the visibility state. -/
def applyVisWrite : VisWrite → LayerVisibility → LayerVisibility
  | .hide k, v => hideKind k v
  | .showFor k, _ => applyLayerVisibility k

/-- Visibility states reachable from map initialization through any
interleaving of the component's write blocks (an over-approximation of the
schedules the handler, the transition timeout and the effect can produce,
including overlapping rapid switches). -/
inductive ReachableVis : LayerVisibility → Prop where
  | init : ReachableVis initialLayerVisibility
  | step (w : VisWrite) {v : LayerVisibility} (h : ReachableVis v) :
      ReachableVis (applyVisWrite w v)

/-- Component state relevant to layer switching. -/
structure GeoViewState where
  activeLayer : MapLayerType
  vis : LayerVisibility
  isLayerTransitioning : Bool
deriving DecidableEq, Repr

/-- State when the map controls first render: default active layer
`'density'`, freshly registered layers, no transition in flight. -/
def initialGeoViewState : GeoViewState where
  activeLayer := .density
  vis := initialLayerVisibility
  isLayerTransitioning := false

/-- Result of one `MapLayerControls.onChange` invocation, observed after
its 300 ms transition delay has elapsed and the visibility effect has run
(`settled`).  `transitionStarted` records whether
`setIsLayerTransitioning(true)` ran, and `immediateWrites` the layout
writes the handler performed synchronously. -/
structure SwitchOutcome where
  state : GeoViewState
  transitionStarted : Bool
  immediateWrites : List VisWrite
deriving DecidableEq, Repr

/-- `MapLayerControls.onChange`, settled: a call with the already-active
kind returns at the `layer === activeLayer` guard; otherwise the handler
hides the current kind, updates the active layer and, after the delay, the
refresh callback and the visibility effect leave exactly the new kind's
layers visible and clear the transition flag. -/
def setActiveLayerSettled (s : GeoViewState) (k : MapLayerType) : SwitchOutcome :=
  if k = s.activeLayer then
    { state := s, transitionStarted := false, immediateWrites := [] }
  else
    { state :=
        { activeLayer := k
          vis := applyLayerVisibility k
          isLayerTransitioning := false }
      transitionStarted := true
      immediateWrites := [.hide s.activeLayer] }

/-- A finite sequence of settled `setActiveLayer` calls. -/
def runLayerSwitches (s : GeoViewState) : List MapLayerType → GeoViewState
  | [] => s
  | k :: ks => runLayerSwitches (setActiveLayerSettled s k).state ks

/-!
## Map instance controller: guarded source updates
(`GeographicView.tsx`: `safelyUpdateMapSource`, lines 386-405, and the
density data update effect, lines 408-474)

Time is discretized into ticks of the 500 ms retry interval.  At each tick
the component's readiness flags are given by an external trace; the effect
body is (re)run whenever its dependencies may have changed — running it at
every tick over-approximates the schedule and is harmless because a run
with unchanged inputs is idempotent.
-/

/-- Map readiness phases of the spec's state machine. -/
inductive MapPhase where
  | uninitialized
  | initializing
  | sourcesReady
  | interactive
deriving DecidableEq, Repr

/-- The component flags the update path reads at one instant. -/
structure PhaseFlags where
  isMapInitialized : Bool
  mapExists : Bool
  isMapLoaded : Bool
  mapSourcesReady : Bool
  showMap : Bool
  isLayerTransitioning : Bool
  isDensityLoading : Bool
deriving DecidableEq, Repr

/-- The phase the flags encode: `map.current` is assigned and
`isMapLoaded`/`mapSourcesReady` are both set inside the `'load'` handler,
and `showMap` follows after the 500 ms settle delay. -/
def phaseOf (f : PhaseFlags) : MapPhase :=
  if f.isMapLoaded && f.mapSourcesReady then
    (if f.showMap then .interactive else .sourcesReady)
  else if f.isMapInitialized then .initializing
  else .uninitialized

/-- The registered GeoJSON sources of the single map instance, by name. -/
def MapSources := String → Option (List DensityGridFeature)

/-- `safelyUpdateMapSource(sourceName, data)`: refuses (returning `false`,
mutating nothing) unless `map.current && isMapLoaded && mapSourcesReady`;
then writes the source if it exists, else logs and returns `false`.  The
surrounding `try/catch` means the caller never sees an exception. -/
def safelyUpdateMapSource (f : PhaseFlags) (sources : MapSources)
    (name : String) (data : List DensityGridFeature) : Bool × MapSources :=
  if !(f.mapExists && f.isMapLoaded && f.mapSourcesReady) then
    (false, sources)
  else
    match sources name with
    | some _ => (true, fun n => if n = name then some data else sources n)
    | none => (false, sources)

/-- What one run of the density update effect did. -/
inductive DensityEffectResult where
  | deferred
  | clearedEmpty
  | noValidFeatures
  | applied
  | retryScheduled
deriving DecidableEq, Repr

/-- The validity filter of the effect: the feature and its geometry are
non-null by construction, so only `Array.isArray(feature.geometry.coordinates)`
can reject. -/
def validDensityFeature (f : DensityGridFeature) : Bool :=
  f.coordinates.isArr

/-- One run of the density data update effect.  `deferred` is the early
return behind `!isMapLoaded || !mapSourcesReady || isLayerTransitioning ||
isDensityLoading`: nothing is written and the effect re-runs when those
dependencies change.  `retryScheduled` is the `if (!updated)` branch that
starts the bounded 500 ms interval. -/
def densityUpdateEffect (f : PhaseFlags) (sources : MapSources)
    (densityData : Option (List DensityGridFeature)) :
    DensityEffectResult × MapSources :=
  if !f.isMapLoaded || !f.mapSourcesReady || f.isLayerTransitioning
      || f.isDensityLoading then
    (.deferred, sources)
  else
    match densityData with
    | none => (.clearedEmpty, (safelyUpdateMapSource f sources "density-grid" []).2)
    | some data =>
      if data.isEmpty then
        (.clearedEmpty, (safelyUpdateMapSource f sources "density-grid" []).2)
      else
        let valid := data.filter validDensityFeature
        if valid.isEmpty then (.noValidFeatures, sources)
        else
          let (updated, s2) := safelyUpdateMapSource f sources "density-grid" valid
          if updated then (.applied, s2) else (.retryScheduled, s2)

/-- The sources after the effect has been given a chance to run at every
tick of a flag trace. -/
def runDensityUpdateTrace (trace : List PhaseFlags) (sources : MapSources)
    (densityData : Option (List DensityGridFeature)) : MapSources :=
  trace.foldl (fun s f => (densityUpdateEffect f s densityData).2) sources

/-- The fixed retry interval of the source-update retry loop (ms). -/
def retryIntervalMs : Nat := 500

/-- The fixed maximum retry duration after which the interval is cleared
(ms): five seconds, i.e. about five time units. -/
def maxRetryDurationMs : Nat := 5000

/-- Number of interval ticks inside the retry window. -/
def maxRetryTicks : Nat := maxRetryDurationMs / retryIntervalMs

/-!
## Layer data cache
(`src/unnamed/part_002`: `useDensityGrid`, `useBusinessClusters`,
`useNeighborhoodMetrics`)

The cache itself is supplied by the external query library; the repository
only configures it (query key `[kind, param]`, `placeholderData` returning
the previous data).  Modelled from the spec: `LayerQuery` keys one cacheable
unit of work, at most one fetch is in flight per distinct query, and while
a refetch is pending the previous `Ready` value remains the visible value.
-/

/-- Modelled from the spec: a cacheable unit of work — the layer kind plus
the single filter parameter that the three hooks put into their query keys
(`['density-grid', minRating]`, `['business-clusters', minSize]`,
`['neighborhood-metrics', minScore]`). -/
structure LayerQuery where
  kind : MapLayerType
  param : ℚ
deriving DecidableEq, Repr

/-- Lifecycle status of a cache entry. -/
inductive FetchStatus where
  | pending
  | ready
  | failed
deriving DecidableEq, Repr

/-- Modelled from the spec: one cache entry.  `currentData` is the last
`Ready` data; it is retained while a newer fetch for the same query is
pending (`placeholderData: previousData => previousData`). -/
structure QueryCacheEntry (α : Type) where
  status : FetchStatus
  currentData : Option α
deriving DecidableEq, Repr

/-- Modelled from the spec: the per-query-key cache, plus a counter of the
underlying fetches it has issued. -/
structure QueryCache (α : Type) where
  entries : LayerQuery → Option (QueryCacheEntry α)
  fetchCount : Nat

/-- Modelled from the spec: the operations consumers drive the cache with. -/
inductive CacheOp (α : Type) where
  | get (q : LayerQuery)
  | refetch (q : LayerQuery)
  | resolve (q : LayerQuery) (d : α)
deriving DecidableEq, Repr

/-- Modelled from the spec: `get` on an absent entry creates it `Pending`
and issues the one underlying fetch; `get` on any existing entry (in
particular a `Pending` one) attaches to it and issues nothing.  `refetch`
marks the entry `Pending`, retains the previous data and issues a fetch.
`resolve` is the completion of an in-flight fetch. -/
def applyCacheOp (c : QueryCache α) : CacheOp α → QueryCache α
  | .get q =>
    match c.entries q with
    | some _ => c
    | none =>
      { entries := fun q2 => if q2 = q then some ⟨.pending, none⟩ else c.entries q2
        fetchCount := c.fetchCount + 1 }
  | .refetch q =>
    { entries := fun q2 =>
        if q2 = q then
          some ⟨.pending, (c.entries q).bind (fun e => e.currentData)⟩
        else c.entries q2
      fetchCount := c.fetchCount + 1 }
  | .resolve q d =>
    { entries := fun q2 => if q2 = q then some ⟨.ready, some d⟩ else c.entries q2
      fetchCount := c.fetchCount }

/-- A sequence of cache operations, applied left to right. -/
def applyCacheOps (c : QueryCache α) : List (CacheOp α) → QueryCache α
  | [] => c
  | op :: ops => applyCacheOps (applyCacheOp c op) ops

/-- Modelled from the spec: the data a consumer reading the cache sees for
a query — the retained `currentData`, regardless of a pending refetch. -/
def readCacheData (c : QueryCache α) (q : LayerQuery) : Option α :=
  (c.entries q).bind (fun e => e.currentData)

/-- Whether an operation is the resolution of the given query's fetch. -/
def resolvesQuery (q : LayerQuery) : CacheOp α → Bool
  | .resolve q2 _ => q2 = q
  | _ => false

/-!
## Basic lemmas about the indexed map
-/

theorem mapWithIndex_length (f : Nat → α → β) (n : Nat) (l : List α) :
    (mapWithIndex f n l).length = l.length := by
  induction l generalizing n with
  | nil => rfl
  | cons x xs ih => simp [mapWithIndex, ih]

theorem mapWithIndex_getElem? (f : Nat → α → β) (n : Nat) (l : List α) (i : Nat) :
    (mapWithIndex f n l)[i]? = (l[i]?).map (f (n + i)) := by
  induction l generalizing n i with
  | nil => simp [mapWithIndex]
  | cons x xs ih =>
    cases i with
    | zero => simp [mapWithIndex]
    | succ j =>
      have harith : n + 1 + j = n + (j + 1) := by omega
      simp [mapWithIndex, ih (n + 1) j, harith]

theorem mem_mapWithIndex {f : Nat → α → β} {b : β} (n : Nat) (l : List α)
    (h : b ∈ mapWithIndex f n l) : ∃ i x, x ∈ l ∧ b = f i x := by
  induction l generalizing n with
  | nil => cases h
  | cons x xs ih =>
    rcases List.mem_cons.mp h with h1 | h1
    · exact ⟨n, x, List.mem_cons_self x xs, h1⟩
    · obtain ⟨i, y, hy, hb⟩ := ih (n + 1) h1
      exact ⟨i, y, List.mem_cons_of_mem x hy, hb⟩

theorem getDensityGrid_arr (items : List Jval) (h : items ≠ []) :
    getDensityGrid (.ok (.arr items)) = mapWithIndex processDensityItem 0 items := by
  cases items with
  | nil => exact absurd rfl h
  | cons x xs => rfl

theorem getBusinessClusters_arr (items : List Jval) (h : items ≠ []) :
    getBusinessClusters (.ok (.arr items)) = mapWithIndex processClusterItem 0 items := by
  cases items with
  | nil => exact absurd rfl h
  | cons x xs => rfl

theorem getNeighborhoodMetrics_arr (items : List Jval) (h : items ≠ []) :
    getNeighborhoodMetrics (.ok (.arr items))
      = (if (neighborhoodFeaturesOf items).length > 0 then neighborhoodFeaturesOf items
         else createFallbackNeighborhoods) := by
  cases items with
  | nil => exact absurd rfl h
  | cons x xs => rfl

/-!
## Claims about the data access client
-/

/-- C2: the three fetch functions are total (they never raise to their
caller: every `safeFetch` failure — network, timeout, HTTP status, JSON
parsing — is caught) and on any failure, or on an empty or non-array
response, `getDensityGrid` and `getBusinessClusters` return the empty
sequence while `getNeighborhoodMetrics` returns the fixed built-in fallback
neighborhoods; in particular an empty array response for business clusters
yields no features and no fallback clusters. -/
theorem fetch_failures_yield_empty_or_fallback :
    (∀ e : FetchError,
        getDensityGrid (.error e) = []
        ∧ getBusinessClusters (.error e) = []
        ∧ getNeighborhoodMetrics (.error e) = createFallbackNeighborhoods)
    ∧ getDensityGrid (.ok (.arr [])) = []
    ∧ getBusinessClusters (.ok (.arr [])) = []
    ∧ getNeighborhoodMetrics (.ok (.arr [])) = createFallbackNeighborhoods
    ∧ (∀ v : Jval, v.isArr = false →
        getDensityGrid (.ok v) = []
        ∧ getBusinessClusters (.ok v) = []
        ∧ getNeighborhoodMetrics (.ok v) = createFallbackNeighborhoods) := by
  refine ⟨fun e => ⟨rfl, rfl, rfl⟩, rfl, rfl, rfl, fun v hv => ?_⟩
  cases v <;> first
    | exact ⟨rfl, rfl, rfl⟩
    | simp [Jval.isArr] at hv

/-- Witness for C2 at concrete inputs. -/
theorem fetch_failures_yield_empty_or_fallback_witness :
    getDensityGrid (.error .timeout) = []
    ∧ getBusinessClusters (.ok (.arr [])) = []
    ∧ getNeighborhoodMetrics (.ok (.num 3)) = createFallbackNeighborhoods :=
  ⟨(fetch_failures_yield_empty_or_fallback.1 .timeout).1,
   fetch_failures_yield_empty_or_fallback.2.2.1,
   (fetch_failures_yield_empty_or_fallback.2.2.2.2 (.num 3) rfl).2.2⟩

/-- C3: a non-empty array response for the density grid or the business
clusters produces exactly one feature per record — a malformed record is
replaced by the synthesized placeholder anchored at the Tampa fallback
origin, never dropped. -/
theorem malformed_records_become_placeholders
    (items : List Jval) (hne : items ≠ []) :
    (getDensityGrid (.ok (.arr items))).length = items.length
    ∧ (getBusinessClusters (.ok (.arr items))).length = items.length
    ∧ (∀ i (item : Jval), items[i]? = some item →
        densityHasExpectedStructure item = false →
        (getDensityGrid (.ok (.arr items)))[i]? = some (fallbackDensityFeature i))
    ∧ (∀ i (item : Jval), items[i]? = some item →
        clusterHasExpectedStructure item = false →
        (getBusinessClusters (.ok (.arr items)))[i]? = some (fallbackClusterFeature i)) := by
  rw [getDensityGrid_arr items hne, getBusinessClusters_arr items hne]
  refine ⟨mapWithIndex_length _ _ _, mapWithIndex_length _ _ _, ?_, ?_⟩
  · intro i item hi hbad
    rw [mapWithIndex_getElem?, hi]
    simp [processDensityItem, hbad]
  · intro i item hi hbad
    rw [mapWithIndex_getElem?, hi]
    simp [processClusterItem, hbad]

/-- Witness for C3: a single `null` record (malformed for both kinds)
yields exactly the placeholder feature. -/
theorem malformed_records_become_placeholders_witness :
    (getDensityGrid (.ok (.arr [.null]))).length = 1
    ∧ (getDensityGrid (.ok (.arr [.null])))[0]? = some (fallbackDensityFeature 0)
    ∧ (getBusinessClusters (.ok (.arr [.null])))[0]? = some (fallbackClusterFeature 0) := by
  have h := malformed_records_become_placeholders [.null] (by simp)
  exact ⟨h.1, h.2.2.1 0 .null rfl rfl, h.2.2.2 0 .null rfl rfl⟩

theorem processNeighborhoodItem_isNone_iff (i : Nat) (n : Jval) :
    (processNeighborhoodItem i n).isNone = true ↔ n = .null := by
  cases n <;> simp [processNeighborhoodItem]

theorem neighborhoodFeatures_length (n : Nat) (items : List Jval) :
    ((mapWithIndex processNeighborhoodItem n items).reduceOption).length
      = (items.filter (fun x => !x.isNull)).length := by
  induction items generalizing n with
  | nil => rfl
  | cons x xs ih =>
    cases x <;>
      simp [mapWithIndex, processNeighborhoodItem, Jval.isNull, List.filter,
        List.reduceOption_cons_of_some, List.reduceOption_cons_of_none, ih (n + 1)]

/-- C4 counterexample: a degenerate (clearly malformed) neighborhood
record — the empty object `{}` — is not dropped by `getNeighborhoodMetrics`:
it is normalized into one synthesized feature, and the fallback set is not
substituted even though the response contained no valid neighborhood
record. -/
theorem neighborhood_malformed_record_not_dropped :
    (getNeighborhoodMetrics (.ok (.arr [.obj []]))).length = 1
    ∧ (processNeighborhoodItem 0 (.obj [])).isSome = true
    ∧ getNeighborhoodMetrics (.ok (.arr [.obj []])) ≠ createFallbackNeighborhoods := by
  refine ⟨rfl, rfl, fun h => ?_⟩
  have h1 : (getNeighborhoodMetrics (.ok (.arr [.obj []]))).length = 1 := rfl
  rw [h] at h1
  exact absurd h1 (by decide)

/-- C4 (amended): in a non-empty neighborhood response, exactly the `null`
records (the only ones whose processing throws) are dropped; every other
record, however malformed, is normalized into a feature; and the built-in
fallback set is substituted exactly when the whole response yields zero
features, i.e. when every record is `null`. -/
theorem neighborhood_null_records_dropped_fallback_iff_all_null
    (items : List Jval) (hne : items ≠ []) :
    (∀ i (n : Jval), items[i]? = some n →
        ((processNeighborhoodItem i n).isNone = true ↔ n = .null))
    ∧ (neighborhoodFeaturesOf items).length
        = (items.filter (fun x => !x.isNull)).length
    ∧ (neighborhoodFeaturesOf items = [] ↔ ∀ n ∈ items, n = .null)
    ∧ (neighborhoodFeaturesOf items = [] →
        getNeighborhoodMetrics (.ok (.arr items)) = createFallbackNeighborhoods)
    ∧ (neighborhoodFeaturesOf items ≠ [] →
        getNeighborhoodMetrics (.ok (.arr items)) = neighborhoodFeaturesOf items) := by
  have hlen : (neighborhoodFeaturesOf items).length
      = (items.filter (fun x => !x.isNull)).length :=
    neighborhoodFeatures_length 0 items
  refine ⟨fun i n _ => processNeighborhoodItem_isNone_iff i n, hlen, ?_, ?_, ?_⟩
  · constructor
    · intro hnil n hn
      have : (items.filter (fun x => !x.isNull)).length = 0 := by
        rw [← hlen, hnil]; rfl
      have hfil : items.filter (fun x => !x.isNull) = [] :=
        List.length_eq_zero.mp this
      have := List.filter_eq_nil_iff.mp hfil n hn
      cases n <;> simp [Jval.isNull] at this ⊢
    · intro hall
      have hfil : items.filter (fun x => !x.isNull) = [] := by
        refine List.filter_eq_nil_iff.mpr (fun n hn => ?_)
        have := hall n hn
        subst this
        simp [Jval.isNull]
      have : (neighborhoodFeaturesOf items).length = 0 := by
        rw [hlen, hfil]; rfl
      exact List.length_eq_zero.mp this
  · intro hnil
    rw [getNeighborhoodMetrics_arr items hne, hnil]
    rfl
  · intro hnnil
    rw [getNeighborhoodMetrics_arr items hne]
    simp [List.length_pos.mpr hnnil]

/-- Witness for C4's amended theorem: one malformed-but-processable record
and one `null` record — the `null` is dropped, the other survives, and the
fallback set is not substituted. -/
theorem neighborhood_null_records_dropped_witness :
    (neighborhoodFeaturesOf [.obj [], .null]).length = 1
    ∧ getNeighborhoodMetrics (.ok (.arr [.obj [], .null]))
        = neighborhoodFeaturesOf [.obj [], .null] := by
  have h := neighborhood_null_records_dropped_fallback_iff_all_null
    [.obj [], .null] (by simp)
  refine ⟨h.2.1, h.2.2.2.2 ?_⟩
  intro hnil
  have := h.2.2.1.mp hnil (.obj []) (by simp)
  cases this

/-- A well-formed cluster record whose `center.coordinates` is a truthy
array that is not a pair of numbers. -/
def clusterNonPairRecord : Jval :=
  .obj [("cluster_id", .str "c1"), ("size", .num 10), ("avg_rating", .num 4),
        ("categories", .arr []), ("center", .obj [("coordinates", .arr [.str "a"])])]

/-- C9 counterexample: the record above is accepted as well-formed, yet the
feature built for it carries the verbatim `coordinates` array `["a"]`,
which is not a pair of numbers. -/
theorem cluster_feature_coordinates_not_always_number_pair :
    clusterHasExpectedStructure clusterNonPairRecord = true
    ∧ (getBusinessClusters (.ok (.arr [clusterNonPairRecord]))).map
        (fun f => f.coordinates) = [.arr [.str "a"]]
    ∧ isNumberPair (.arr [.str "a"]) = false :=
  ⟨rfl, rfl, rfl⟩

/-- The center matches none of the recognized shapes: no truthy
`coordinates` array, no numeric `{x,y}`, no numeric
`{longitude,latitude}`, and not a two-key object with two numeric
values. -/
def centerNoRecognizedShape (center : Jval) : Bool :=
  !(truthyO (center.get "coordinates") && isArrO (center.get "coordinates"))
    && !(isNumberTypeO (center.get "x") && isNumberTypeO (center.get "y"))
    && !(isNumberTypeO (center.get "longitude") && isNumberTypeO (center.get "latitude"))
    && !(center.isObjectType && center.keyCount == 2
          && (match center.indexedValues with
              | [v0, v1] => v0.isNumberType && v1.isNumberType
              | _ => false))

/-- C9 (amended): every feature built from a well-formed cluster record has
Point geometry; when the record's center has a truthy `coordinates` array
that array is used verbatim (it need not be a pair of numbers); in every
other case the coordinates are a pair of JS numbers, and when the center
matches none of the recognized shapes they default to the fixed point
`[-82.45, 27.95]`. -/
theorem cluster_center_normalization (c : Jval) (i : Nat)
    (h : clusterHasExpectedStructure c = true) :
    (processClusterItem i c).geometryType = "Point"
    ∧ ((truthyO (((c.get "center").getD .null).get "coordinates")
          && isArrO (((c.get "center").getD .null).get "coordinates")) = true →
        (processClusterItem i c).coordinates
          = (((c.get "center").getD .null).get "coordinates").getD .null)
    ∧ ((truthyO (((c.get "center").getD .null).get "coordinates")
          && isArrO (((c.get "center").getD .null).get "coordinates")) = false →
        isNumberPair (processClusterItem i c).coordinates = true)
    ∧ (centerNoRecognizedShape ((c.get "center").getD .null) = true →
        (processClusterItem i c).coordinates = .arr [.num (-82.45), .num 27.95]) := by
  have hproc : processClusterItem i c
      = { featureType := "Feature"
          geometryType := "Point"
          coordinates := clusterCenterCoordinates ((c.get "center").getD .null)
          id := jsOr (c.get "cluster_id") (.str ("cluster-" ++ toString i))
          size := jsOr (c.get "size") (.num 5)
          rating := jsOr (c.get "avg_rating") (.num 3)
          categories := jsOr (c.get "categories") (.arr []) } := by
    simp [processClusterItem, h]
  set center := (c.get "center").getD .null with hcenter
  rw [hproc]
  refine ⟨rfl, ?_, ?_, ?_⟩
  · intro hb1
    simp [clusterCenterCoordinates, hb1]
  · intro hb1
    unfold clusterCenterCoordinates
    rw [hb1]
    simp only [Bool.false_eq_true, if_false]
    by_cases hb2 : (isNumberTypeO (center.get "x") && isNumberTypeO (center.get "y")) = true
    · rw [if_pos hb2]
      rcases Bool.and_eq_true_iff.mp hb2 with ⟨hx, hy⟩
      cases hgx : center.get "x" with
      | none => rw [hgx] at hx; cases hx
      | some vx =>
        cases hgy : center.get "y" with
        | none => rw [hgy] at hy; cases hy
        | some vy =>
          rw [hgx] at hx; rw [hgy] at hy
          simp [hgx, hgy, isNumberPair, isNumberTypeO] at hx hy ⊢
          exact ⟨hx, hy⟩
    · rw [if_neg (by simpa using hb2)]
      by_cases hb3 : (isNumberTypeO (center.get "longitude")
          && isNumberTypeO (center.get "latitude")) = true
      · rw [if_pos hb3]
        rcases Bool.and_eq_true_iff.mp hb3 with ⟨hx, hy⟩
        cases hgx : center.get "longitude" with
        | none => rw [hgx] at hx; cases hx
        | some vx =>
          cases hgy : center.get "latitude" with
          | none => rw [hgy] at hy; cases hy
          | some vy =>
            rw [hgx] at hx; rw [hgy] at hy
            simp [hgx, hgy, isNumberPair, isNumberTypeO] at hx hy ⊢
            exact ⟨hx, hy⟩
      · rw [if_neg (by simpa using hb3)]
        by_cases hb4 : (center.isObjectType && center.keyCount == 2) = true
        · rw [if_pos hb4]
          cases hvals : center.indexedValues with
          | nil => simp [isNumberPair, Jval.isNumberType]
          | cons v0 rest =>
            cases rest with
            | nil => simp [isNumberPair, Jval.isNumberType]
            | cons v1 rest2 =>
              cases rest2 with
              | nil =>
                by_cases hnum : (v0.isNumberType && v1.isNumberType) = true
                · simp only [hnum, if_true]
                  rcases Bool.and_eq_true_iff.mp hnum with ⟨h0, h1⟩
                  simp [isNumberPair, h0, h1]
                · simp only [hnum, if_false]
                  simp [isNumberPair, Jval.isNumberType]
              | cons _ _ => simp [isNumberPair, Jval.isNumberType]
        · rw [if_neg (by simpa using hb4)]
          simp [isNumberPair, Jval.isNumberType]
  · intro hnone
    unfold centerNoRecognizedShape at hnone
    simp only [Bool.and_eq_true, Bool.not_eq_true'] at hnone
    obtain ⟨⟨⟨hb1, hb2⟩, hb3⟩, hb4⟩ := hnone
    unfold clusterCenterCoordinates
    rw [hb1]
    simp only [Bool.false_eq_true, if_false]
    rw [if_neg (by simp [hb2])]
    rw [if_neg (by simp [hb3])]
    by_cases hobj : (center.isObjectType && center.keyCount == 2) = true
    · rw [if_pos hobj]
      cases hvals : center.indexedValues with
      | nil => rfl
      | cons v0 rest =>
        cases rest with
        | nil => rfl
        | cons v1 rest2 =>
          cases rest2 with
          | nil =>
            have : (v0.isNumberType && v1.isNumberType) = false := by
              rcases Bool.and_eq_true_iff.mp hobj with ⟨ho, hk⟩
              by_contra hcon
              rw [Bool.not_eq_false] at hcon
              rw [ho, hk, hvals] at hb4
              simp [hcon] at hb4
            simp [this]
          | cons _ _ => rfl
    · rw [if_neg (by simpa using hobj)]

/-- Witness for C9's amended theorem at a numeric `{x,y}` center. -/
theorem cluster_center_normalization_witness :
    (processClusterItem 0 (.obj [("cluster_id", .str "k"), ("size", .num 3),
        ("avg_rating", .num 4), ("categories", .arr []),
        ("center", .obj [("x", .num 1), ("y", .num 2)])])).geometryType = "Point"
    ∧ isNumberPair (processClusterItem 0 (.obj [("cluster_id", .str "k"),
        ("size", .num 3), ("avg_rating", .num 4), ("categories", .arr []),
        ("center", .obj [("x", .num 1), ("y", .num 2)])])).coordinates = true := by
  have h := cluster_center_normalization (.obj [("cluster_id", .str "k"),
    ("size", .num 3), ("avg_rating", .num 4), ("categories", .arr []),
    ("center", .obj [("x", .num 1), ("y", .num 2)])]) 0 rfl
  exact ⟨h.1, h.2.2.1 rfl⟩

theorem jsOr_numberType_ne_zero {v : Jval} (h : v.isNumberType = true)
    {d : ℚ} (hd : d ≠ 0) : jsOr (some v) (.num d) ≠ .num 0 := by
  intro heq
  cases v with
  | num q =>
    by_cases hq : q = 0
    · simp [jsOr, Jval.truthy, hq] at heq
      exact hd heq
    · simp [jsOr, Jval.truthy, hq] at heq
  | nan =>
    simp [jsOr, Jval.truthy] at heq
    exact hd heq
  | null => simp [Jval.isNumberType] at h
  | bool b => simp [Jval.isNumberType] at h
  | str s => simp [Jval.isNumberType] at h
  | arr xs => simp [Jval.isNumberType] at h
  | obj kvs => simp [Jval.isNumberType] at h

theorem processClusterItem_size_rating_ne_zero (i : Nat) (c : Jval) :
    (processClusterItem i c).size ≠ .num 0
    ∧ (processClusterItem i c).rating ≠ .num 0 := by
  by_cases h : clusterHasExpectedStructure c = true
  · have hcomp := h
    unfold clusterHasExpectedStructure at hcomp
    simp only [Bool.and_eq_true] at hcomp
    obtain ⟨⟨⟨⟨⟨-, -⟩, hsize⟩, hrating⟩, -⟩, -⟩ := hcomp
    constructor
    · simp only [processClusterItem, h, if_true]
      cases hgs : c.get "size" with
      | none => rw [hgs] at hsize; cases hsize
      | some v =>
        rw [hgs] at hsize
        exact jsOr_numberType_ne_zero hsize (by norm_num)
    · simp only [processClusterItem, h, if_true]
      cases hgs : c.get "avg_rating" with
      | none => rw [hgs] at hrating; cases hrating
      | some v =>
        rw [hgs] at hrating
        exact jsOr_numberType_ne_zero hrating (by norm_num)
  · rw [Bool.not_eq_true] at h
    constructor <;>
      · simp only [processClusterItem, h, Bool.false_eq_true, if_false,
          fallbackClusterFeature]
        intro heq
        have := Jval.num.inj heq
        norm_num at this

/-- C10: in a well-formed cluster record, falsy attribute values are
silently replaced by constants — `size: 0` becomes `5`, `avg_rating: 0`
becomes `3`, an empty `cluster_id` becomes the generated
`cluster-<index>` — and consequently no feature returned by
`getBusinessClusters` ever carries `size` 0 or `rating` 0. -/
theorem cluster_falsy_attributes_replaced :
    (∀ (c : Jval) (i : Nat), clusterHasExpectedStructure c = true →
        (c.get "size" = some (.num 0) → (processClusterItem i c).size = .num 5)
        ∧ (c.get "avg_rating" = some (.num 0) →
            (processClusterItem i c).rating = .num 3)
        ∧ (c.get "cluster_id" = some (.str "") →
            (processClusterItem i c).id = .str ("cluster-" ++ toString i)))
    ∧ (∀ (r : FetchResult) (f : BusinessClusterFeature),
        f ∈ getBusinessClusters r → f.size ≠ .num 0 ∧ f.rating ≠ .num 0) := by
  constructor
  · intro c i h
    refine ⟨fun hs => ?_, fun hr => ?_, fun hid => ?_⟩
    · simp [processClusterItem, h, hs, jsOr, Jval.truthy]
    · simp [processClusterItem, h, hr, jsOr, Jval.truthy]
    · simp [processClusterItem, h, hid, jsOr, Jval.truthy]
  · intro r f hf
    have hmem : ∃ i c, f = processClusterItem i c := by
      cases r with
      | error e => cases hf
      | ok v =>
        cases v with
        | arr items =>
          cases items with
          | nil => cases hf
          | cons x xs =>
            obtain ⟨i, c, -, hb⟩ :=
              mem_mapWithIndex 0 (x :: xs) (by exact hf)
            exact ⟨i, c, hb⟩
        | null => cases hf
        | nan => cases hf
        | bool b => cases hf
        | num q => cases hf
        | str s => cases hf
        | obj kvs => cases hf
    obtain ⟨i, c, rfl⟩ := hmem
    exact processClusterItem_size_rating_ne_zero i c

/-- Witness for C10 at a concrete record with falsy attributes. -/
theorem cluster_falsy_attributes_replaced_witness :
    (processClusterItem 4 (.obj [("cluster_id", .str ""), ("size", .num 0),
        ("avg_rating", .num 0), ("categories", .arr []),
        ("center", .arr [.num 1, .num 2])])).size = .num 5
    ∧ (processClusterItem 4 (.obj [("cluster_id", .str ""), ("size", .num 0),
        ("avg_rating", .num 0), ("categories", .arr []),
        ("center", .arr [.num 1, .num 2])])).rating = .num 3
    ∧ (processClusterItem 4 (.obj [("cluster_id", .str ""), ("size", .num 0),
        ("avg_rating", .num 0), ("categories", .arr []),
        ("center", .arr [.num 1, .num 2])])).id = .str "cluster-4"
    ∧ (fallbackClusterFeature 0).size ≠ .num 0 := by
  have h := cluster_falsy_attributes_replaced.1 (.obj [("cluster_id", .str ""),
    ("size", .num 0), ("avg_rating", .num 0), ("categories", .arr []),
    ("center", .arr [.num 1, .num 2])]) 4 rfl
  have hmem : fallbackClusterFeature 0 ∈ getBusinessClusters (.ok (.arr [.null])) := by
    rw [getBusinessClusters_arr [.null] (by simp)]
    simp [mapWithIndex, processClusterItem, clusterHasExpectedStructure,
      Jval.truthy]
  exact ⟨h.1 rfl, h.2.1 rfl, h.2.2 rfl,
    (cluster_falsy_attributes_replaced.2 (.ok (.arr [.null]))
      (fallbackClusterFeature 0) hmem).1⟩

/-!
## Claims about the layer visibility state machine
-/

theorem visibleKindCount_hideKind_le (k : MapLayerType) (v : LayerVisibility) :
    visibleKindCount (hideKind k v) ≤ visibleKindCount v := by
  rcases v with ⟨a, b, c, d, e, f⟩
  cases k <;> cases a <;> cases b <;> cases c <;> cases d <;> cases e <;>
    cases f <;> decide

theorem visibleKindCount_applyLayerVisibility (k : MapLayerType) :
    visibleKindCount (applyLayerVisibility k) = 1 := by
  cases k <;> decide

theorem reachable_at_most_one_kind {v : LayerVisibility} (h : ReachableVis v) :
    visibleKindCount v ≤ 1 := by
  induction h with
  | init => decide
  | step w h ih =>
    cases w with
    | hide k => exact le_trans (visibleKindCount_hideKind_le k _) ih
    | showFor k =>
      simpa [applyVisWrite] using (visibleKindCount_applyLayerVisibility k).le

theorem runLayerSwitches_vis_consistent (calls : List MapLayerType)
    (s : GeoViewState) (h : s.vis = applyLayerVisibility s.activeLayer) :
    (runLayerSwitches s calls).vis
      = applyLayerVisibility (runLayerSwitches s calls).activeLayer := by
  induction calls generalizing s with
  | nil => exact h
  | cons k ks ih =>
    apply ih
    unfold setActiveLayerSettled
    by_cases hk : k = s.activeLayer <;> simp [hk, h]

/-- C1: over every interleaving of the component's visibility write blocks
at most one layer kind is ever visible, and after any finite sequence of
settled `setActiveLayer` calls (rapid repeated switches included) exactly
one of the three kinds is visible. -/
theorem at_most_one_layer_kind_visible :
    (∀ v : LayerVisibility, ReachableVis v → visibleKindCount v ≤ 1)
    ∧ (∀ calls : List MapLayerType,
        visibleKindCount (runLayerSwitches initialGeoViewState calls).vis = 1) := by
  constructor
  · intro v h
    exact reachable_at_most_one_kind h
  · intro calls
    rw [runLayerSwitches_vis_consistent calls initialGeoViewState (by decide)]
    exact visibleKindCount_applyLayerVisibility _

/-- Witness for C1 at the initial state and at a concrete rapid switch
sequence. -/
theorem at_most_one_layer_kind_visible_witness :
    visibleKindCount initialLayerVisibility ≤ 1
    ∧ visibleKindCount (runLayerSwitches initialGeoViewState
        [.clusters, .clusters, .neighborhoods, .density]).vis = 1 :=
  ⟨at_most_one_layer_kind_visible.1 initialLayerVisibility ReachableVis.init,
   at_most_one_layer_kind_visible.2 [.clusters, .clusters, .neighborhoods, .density]⟩

/-- C8: a second `setActiveLayer` call with the kind that is already active
returns at the `layer === activeLayer` guard — the state is unchanged, the
transition flag is not set, and no visibility property is written. -/
theorem setActiveLayer_repeat_noop (s : GeoViewState) (k : MapLayerType) :
    setActiveLayerSettled (setActiveLayerSettled s k).state k
      = { state := (setActiveLayerSettled s k).state
          transitionStarted := false
          immediateWrites := [] } := by
  unfold setActiveLayerSettled
  by_cases h : k = s.activeLayer <;> simp [h]

/-- Witness for C8 at a concrete state and kind. -/
theorem setActiveLayer_repeat_noop_witness :
    setActiveLayerSettled
        (setActiveLayerSettled initialGeoViewState .clusters).state .clusters
      = { state := (setActiveLayerSettled initialGeoViewState .clusters).state
          transitionStarted := false
          immediateWrites := [] } :=
  setActiveLayer_repeat_noop initialGeoViewState .clusters

/-!
## Claims about guarded source updates
-/

theorem phaseOf_initializing_not_ready {f : PhaseFlags}
    (h : phaseOf f = .initializing) :
    (f.isMapLoaded && f.mapSourcesReady) = false := by
  unfold phaseOf at h
  by_cases hc : (f.isMapLoaded && f.mapSourcesReady) = true
  · rw [if_pos hc] at h
    by_cases hs : f.showMap = true <;> simp [hs] at h
  · exact Bool.eq_false_iff.mpr hc

theorem phaseOf_interactive_ready {f : PhaseFlags}
    (h : phaseOf f = .interactive) :
    f.isMapLoaded = true ∧ f.mapSourcesReady = true := by
  unfold phaseOf at h
  by_cases hc : (f.isMapLoaded && f.mapSourcesReady) = true
  · exact Bool.and_eq_true_iff.mp hc
  · rw [if_neg hc] at h
    by_cases hi : f.isMapInitialized = true <;> simp [hi] at h

theorem densityUpdateEffect_deferred {f : PhaseFlags}
    (h : (f.isMapLoaded && f.mapSourcesReady) = false)
    (sources : MapSources) (data : Option (List DensityGridFeature)) :
    densityUpdateEffect f sources data = (.deferred, sources) := by
  unfold densityUpdateEffect
  cases hl : f.isMapLoaded with
  | false => simp [hl]
  | true =>
    rw [hl] at h
    simp only [Bool.true_and] at h
    simp [hl, h]

theorem densityUpdateEffect_applied {f : PhaseFlags} {sources : MapSources}
    {data old : List DensityGridFeature}
    (hl : f.isMapLoaded = true) (hr : f.mapSourcesReady = true)
    (hx : f.mapExists = true) (ht : f.isLayerTransitioning = false)
    (hd : f.isDensityLoading = false)
    (hreg : sources "density-grid" = some old)
    (hne : data ≠ []) (hvalid : ∀ g ∈ data, validDensityFeature g = true) :
    (densityUpdateEffect f sources (some data)).1 = .applied
    ∧ (densityUpdateEffect f sources (some data)).2 "density-grid" = some data
    ∧ ∀ n, n ≠ "density-grid" →
        (densityUpdateEffect f sources (some data)).2 n = sources n := by
  have hfilter : data.filter validDensityFeature = data :=
    List.filter_eq_self.mpr hvalid
  have hie : data.isEmpty = false := by
    cases data with
    | nil => exact absurd rfl hne
    | cons x xs => rfl
  have hupd : safelyUpdateMapSource f sources "density-grid" data
      = (true, fun n => if n = "density-grid" then some data else sources n) := by
    unfold safelyUpdateMapSource
    simp [hx, hl, hr, hreg]
  have heff : densityUpdateEffect f sources (some data)
      = (.applied, fun n => if n = "density-grid" then some data else sources n) := by
    unfold densityUpdateEffect
    simp only [hl, hr, ht, hd, Bool.not_true, Bool.false_or, Bool.or_self,
      Bool.or_false, Bool.false_eq_true, if_false, hie, hfilter]
    simp [hie, hfilter, hupd]
  rw [heff]
  exact ⟨rfl, by simp, fun n hn => by simp [hn]⟩

theorem runDensityUpdateTrace_not_ready (trace : List PhaseFlags)
    (sources : MapSources) (data : Option (List DensityGridFeature))
    (h : ∀ g ∈ trace, (g.isMapLoaded && g.mapSourcesReady) = false) :
    runDensityUpdateTrace trace sources data = sources := by
  induction trace generalizing sources with
  | nil => rfl
  | cons g gs ih =>
    show runDensityUpdateTrace gs ((densityUpdateEffect g sources data).2) data
      = sources
    rw [densityUpdateEffect_deferred (h g (List.mem_cons_self g gs)) sources data]
    exact ih sources (fun x hx => h x (List.mem_cons_of_mem g hx))

/-- C5: a density source update attempted while the map phase is still
Initializing does not raise (the effect is a total function), does not
mutate any source, and is deferred for retry; the update is applied as soon
as a tick within the retry window reaches the Interactive phase (with no
transition or load in progress); and if the phase never advances the whole
trace leaves the sources untouched — the retry gives up silently after the
fixed window of `maxRetryDurationMs = 5000` ms at `retryIntervalMs =
500` ms per attempt. -/
theorem pushFeatures_defers_below_ready
    (t0 : PhaseFlags) (sources : MapSources) (data : List DensityGridFeature)
    (old : List DensityGridFeature)
    (h0 : phaseOf t0 = .initializing)
    (hreg : sources "density-grid" = some old)
    (hne : data ≠ []) (hvalid : ∀ g ∈ data, validDensityFeature g = true) :
    densityUpdateEffect t0 sources (some data) = (.deferred, sources)
    ∧ (∀ f : PhaseFlags, phaseOf f = .interactive → f.mapExists = true →
        f.isLayerTransitioning = false → f.isDensityLoading = false →
        ∀ sources2 : MapSources, sources2 "density-grid" = some old →
          (densityUpdateEffect f sources2 (some data)).1 = .applied
          ∧ (densityUpdateEffect f sources2 (some data)).2 "density-grid"
              = some data)
    ∧ (∀ pre : List PhaseFlags, pre.length ≤ maxRetryTicks →
        (∀ g ∈ pre, (g.isMapLoaded && g.mapSourcesReady) = false) →
        ∀ f : PhaseFlags, phaseOf f = .interactive → f.mapExists = true →
          f.isLayerTransitioning = false → f.isDensityLoading = false →
          (runDensityUpdateTrace (pre ++ [f]) sources (some data)) "density-grid"
            = some data)
    ∧ (∀ trace : List PhaseFlags,
        (∀ g ∈ trace, (g.isMapLoaded && g.mapSourcesReady) = false) →
        runDensityUpdateTrace trace sources (some data) = sources) := by
  refine ⟨densityUpdateEffect_deferred (phaseOf_initializing_not_ready h0) sources
      (some data), ?_, ?_, ?_⟩
  · intro f hf hx ht hd sources2 hreg2
    obtain ⟨hl, hr⟩ := phaseOf_interactive_ready hf
    have h := densityUpdateEffect_applied hl hr hx ht hd hreg2 hne hvalid
    exact ⟨h.1, h.2.1⟩
  · intro pre _ hpre f hf hx ht hd
    obtain ⟨hl, hr⟩ := phaseOf_interactive_ready hf
    unfold runDensityUpdateTrace
    rw [List.foldl_append]
    have hpref : List.foldl
        (fun s g => (densityUpdateEffect g s (some data)).2) sources pre
        = sources := runDensityUpdateTrace_not_ready pre sources (some data) hpre
    rw [hpref]
    show (densityUpdateEffect f sources (some data)).2 "density-grid" = some data
    exact (densityUpdateEffect_applied hl hr hx ht hd hreg hne hvalid).2.1
  · intro trace htr
    exact runDensityUpdateTrace_not_ready trace sources (some data) htr

/-- Witness for C5: a two-tick trace that starts Initializing and reaches
Interactive. -/
theorem pushFeatures_defers_below_ready_witness :
    densityUpdateEffect ⟨true, false, false, false, false, false, false⟩
        (fun n => if n = "density-grid" then some [] else none)
        (some [fallbackDensityFeature 0])
      = (.deferred, fun n => if n = "density-grid" then some [] else none)
    ∧ (runDensityUpdateTrace
        [⟨true, false, false, false, false, false, false⟩,
         ⟨true, true, true, true, true, false, false⟩]
        (fun n => if n = "density-grid" then some [] else none)
        (some [fallbackDensityFeature 0])) "density-grid"
      = some [fallbackDensityFeature 0] := by
  have h := pushFeatures_defers_below_ready
    ⟨true, false, false, false, false, false, false⟩
    (fun n => if n = "density-grid" then some [] else none)
    [fallbackDensityFeature 0] [] rfl rfl (by simp)
    (by
      intro g hg
      rw [List.mem_singleton.mp hg]
      rfl)
  refine ⟨h.1, ?_⟩
  exact h.2.2.1 [⟨true, false, false, false, false, false, false⟩]
    (by decide)
    (by
      intro g hg
      rw [List.mem_singleton.mp hg]
      rfl)
    ⟨true, true, true, true, true, false, false⟩ rfl rfl rfl rfl

/-!
## Claims about the layer data cache
-/

theorem cacheOp_preserves_retained_data {α : Type} {c : QueryCache α}
    {q : LayerQuery} {d : α} {st : FetchStatus}
    (h : c.entries q = some ⟨st, some d⟩) (op : CacheOp α)
    (hop : resolvesQuery q op = false) :
    ∃ st2, (applyCacheOp c op).entries q = some ⟨st2, some d⟩ := by
  cases op with
  | get q2 =>
    simp only [applyCacheOp]
    cases hq2 : c.entries q2 with
    | some e => exact ⟨st, h⟩
    | none =>
      by_cases heq : q = q2
      · exfalso
        rw [heq] at h
        rw [h] at hq2
        cases hq2
      · refine ⟨st, ?_⟩
        simp only [if_neg heq]
        exact h
  | refetch q2 =>
    simp only [applyCacheOp]
    by_cases heq : q = q2
    · subst heq
      exact ⟨.pending, by simp [h]⟩
    · refine ⟨st, ?_⟩
      simp only [if_neg heq]
      exact h
  | resolve q2 d2 =>
    have hne : ¬(q = q2) := by
      intro heq
      subst heq
      simp [resolvesQuery] at hop
    simp only [applyCacheOp]
    refine ⟨st, ?_⟩
    simp only [if_neg hne]
    exact h

theorem cacheOps_preserve_retained_data {α : Type} {q : LayerQuery} {d : α}
    (ops : List (CacheOp α)) (c : QueryCache α) {st : FetchStatus}
    (h : c.entries q = some ⟨st, some d⟩)
    (hops : ∀ op ∈ ops, resolvesQuery q op = false) :
    ∃ st2, (applyCacheOps c ops).entries q = some ⟨st2, some d⟩ := by
  induction ops generalizing c st with
  | nil => exact ⟨st, h⟩
  | cons op rest ih =>
    obtain ⟨st1, h1⟩ := cacheOp_preserves_retained_data h op
      (hops op (List.mem_cons_self op rest))
    exact ih (applyCacheOp c op) h1
      (fun x hx => hops x (List.mem_cons_of_mem op hx))

/-- C6 (spec-modelled cache): once a `Ready` entry with data `d` exists for
query `q`, a refetch for `q` marks it `Pending` while retaining `d`, and
every read performed before that refetch resolves — through any interleaved
operations that do not resolve `q` — still returns `d`, never a
pending/empty gap. -/
theorem stale_data_retained_during_refetch {α : Type} (c : QueryCache α)
    (q : LayerQuery) (d : α) (ops : List (CacheOp α))
    (h : c.entries q = some ⟨.ready, some d⟩)
    (hops : ∀ op ∈ ops, resolvesQuery q op = false) :
    (applyCacheOp c (.refetch q)).entries q = some ⟨.pending, some d⟩
    ∧ readCacheData (applyCacheOps (applyCacheOp c (.refetch q)) ops) q = some d := by
  have h1 : (applyCacheOp c (.refetch q)).entries q = some ⟨.pending, some d⟩ := by
    simp only [applyCacheOp]
    simp [h]
  refine ⟨h1, ?_⟩
  obtain ⟨st2, h2⟩ := cacheOps_preserve_retained_data ops _ h1 hops
  unfold readCacheData
  rw [h2]
  rfl

/-- Witness for C6 with interleaved reads of other queries. -/
theorem stale_data_retained_during_refetch_witness :
    readCacheData
      (applyCacheOps
        (applyCacheOp
          (⟨fun q2 => if q2 = ⟨.density, 1⟩ then some ⟨.ready, some 7⟩ else none, 1⟩ :
            QueryCache Nat)
          (.refetch ⟨.density, 1⟩))
        [.get ⟨.density, 1⟩, .get ⟨.clusters, 5⟩, .resolve ⟨.clusters, 5⟩ 9])
      ⟨.density, 1⟩ = some 7 := by
  have h := stale_data_retained_during_refetch
    (⟨fun q2 => if q2 = ⟨.density, 1⟩ then some ⟨.ready, some 7⟩ else none, 1⟩ :
      QueryCache Nat)
    ⟨.density, 1⟩ 7
    [.get ⟨.density, 1⟩, .get ⟨.clusters, 5⟩, .resolve ⟨.clusters, 5⟩ 9]
    (by simp)
    (by decide)
  exact h.2

/-- C7 (spec-modelled cache): two consecutive `get` calls with an identical
`LayerQuery` issue exactly one underlying fetch — the first creates the
single `Pending` entry, the second attaches to it, changing nothing. -/
theorem identical_gets_issue_one_fetch {α : Type} (c : QueryCache α)
    (q : LayerQuery) (h : c.entries q = none) :
    (applyCacheOp c (.get q)).fetchCount = c.fetchCount + 1
    ∧ (applyCacheOp c (.get q)).entries q = some ⟨.pending, none⟩
    ∧ applyCacheOp (applyCacheOp c (.get q)) (.get q) = applyCacheOp c (.get q) := by
  have h1 : applyCacheOp c (.get q)
      = { entries := fun q2 => if q2 = q then some ⟨.pending, none⟩ else c.entries q2
          fetchCount := c.fetchCount + 1 } := by
    simp only [applyCacheOp]
    rw [h]
  refine ⟨by rw [h1], by rw [h1]; simp, ?_⟩
  rw [h1]
  simp only [applyCacheOp]
  simp

/-- Witness for C7 on the empty cache. -/
theorem identical_gets_issue_one_fetch_witness :
    (applyCacheOp (⟨fun _ => none, 0⟩ : QueryCache Nat) (.get ⟨.density, 1⟩)).fetchCount
      = 1
    ∧ applyCacheOp (applyCacheOp (⟨fun _ => none, 0⟩ : QueryCache Nat)
          (.get ⟨.density, 1⟩)) (.get ⟨.density, 1⟩)
      = applyCacheOp (⟨fun _ => none, 0⟩ : QueryCache Nat) (.get ⟨.density, 1⟩) := by
  have h := identical_gets_issue_one_fetch (⟨fun _ => none, 0⟩ : QueryCache Nat)
    ⟨.density, 1⟩ rfl
  exact ⟨h.1, h.2.2⟩
